import Mathlib

/-!
Verification of the NLP analysis orchestration pipeline
(`functions/main.py` and `functions/nlp_processor_gcf.py`).

The Python sources are shallowly embedded below.  Pure in-repository code
(URL rewriting, lexical flagging, control flow of the analysis pipeline,
model-loader control flow) is translated directly; external collaborators
(the contractions library, flair/transformers predictors, the speech and
Whisper providers, the filesystem) are modelled as explicit oracle
parameters carrying their observable outcome (`Except` for calls that may
raise).  Machine floats that only flow through the result (entity scores,
topic scores) are modelled as rationals.
-/

/-! ### Python string primitives -/

/-- Python `str.lower()` restricted to its ASCII behaviour (the texts in the
pipeline are English transcripts). -/
def pyLower (s : String) : String :=
  String.mk (s.toList.map Char.toLower)

/-- Characters-level both-sides whitespace trim. -/
def trimChars (l : List Char) : List Char :=
  ((l.dropWhile Char.isWhitespace).reverse.dropWhile Char.isWhitespace).reverse

/-- Python `str.strip()`. -/
def pyStrip (s : String) : String :=
  String.mk (trimChars s.toList)

/-- Helper of `pySplit`: accumulates the current token (reversed). -/
def pySplitAux : List Char → List Char → List String
  | [], acc => if acc.isEmpty then [] else [String.mk acc.reverse]
  | c :: cs, acc =>
    if c.isWhitespace then
      if acc.isEmpty then pySplitAux cs [] else String.mk acc.reverse :: pySplitAux cs []
    else pySplitAux cs (c :: acc)

/-- Python `str.split()` with no argument: splits on whitespace runs and
drops empty tokens. -/
def pySplit (s : String) : List String :=
  pySplitAux s.toList []

/-- Helper of `splitOnChar`. -/
def splitOnCharAux (sep : Char) : List Char → List Char → List String
  | [], acc => [String.mk acc.reverse]
  | c :: cs, acc =>
    if c = sep then String.mk acc.reverse :: splitOnCharAux sep cs []
    else splitOnCharAux sep cs (c :: acc)

/-- Python `str.split(sep)` for a one-character separator: keeps empty
pieces, and splitting the empty string yields one empty piece. -/
def splitOnChar (sep : Char) (s : String) : List String :=
  splitOnCharAux sep s.toList []

/-- Python `str.startswith(p)`. -/
def pyStartsWith (s p : String) : Bool :=
  decide (s.toList.take p.length = p.toList)

/-! ### `convert_to_gs_uri` (main.py lines 151-174) -/

/-- Scans past the first `://` occurrence (scheme separator). -/
def dropScheme : List Char → List Char
  | [] => []
  | ':' :: '/' :: '/' :: rest => rest
  | _ :: rest => dropScheme rest

/-- The `path` component of `urllib.parse.urlparse` for an absolute URL:
everything between the host and the first `?` or `#`. -/
def pathOfUrl (s : String) : String :=
  String.mk (((dropScheme s.toList).dropWhile (fun c => c ≠ '/')).takeWhile
    (fun c => c ≠ '?' ∧ c ≠ '#'))

/-- Hexadecimal digit value, as used by percent-decoding. -/
def hexVal (c : Char) : Option Nat :=
  if '0' ≤ c ∧ c ≤ '9' then some (c.toNat - '0'.toNat)
  else if 'a' ≤ c ∧ c ≤ 'f' then some (c.toNat - 'a'.toNat + 10)
  else if 'A' ≤ c ∧ c ≤ 'F' then some (c.toNat - 'A'.toNat + 10)
  else none

/-- Helper of `pyUnquote`. -/
def unquoteAux : List Char → List Char
  | [] => []
  | '%' :: a :: b :: rest =>
    match hexVal a, hexVal b with
    | some x, some y => Char.ofNat (16 * x + y) :: unquoteAux rest
    | _, _ => '%' :: unquoteAux (a :: b :: rest)
  | c :: rest => c :: unquoteAux rest

/-- Python `urllib.parse.unquote`, restricted to single-byte (ASCII)
percent escapes such as `%2F`. -/
def pyUnquote (s : String) : String :=
  String.mk (unquoteAux s.toList)

/-- The guard prefix checked by `convert_to_gs_uri`. -/
def firebasePrefix : String :=
  "https://firebasestorage.googleapis.com"

/-- `convert_to_gs_uri` (main.py 151-174): rewrites a Firebase Storage HTTP
URL `/v0/b/[BUCKET]/o/[OBJECT]?token=...` into `gs://BUCKET/OBJECT` with the
object path percent-decoded, and returns every other input unchanged.  The
`try`/`except` in the source is unreachable in this model because the parsing
steps are total. -/
def convert_to_gs_uri (http_url : String) : String :=
  if http_url = "" ∨ ¬ pyStartsWith http_url firebasePrefix then http_url
  else
    let parts := splitOnChar '/' (pathOfUrl http_url)
    if 5 < parts.length ∧ parts.getD 2 "" = "b" ∧ parts.getD 4 "" = "o" then
      "gs://" ++ parts.getD 3 "" ++ "/" ++ pyUnquote (parts.getD 5 "")
    else http_url

/-! ### `detect_flagged_words_server` (nlp_processor_gcf.py lines 324-397) -/

/-- The cleaned form of one whitespace token: keep alphanumeric characters,
then lower-case (the text was already lower-cased before splitting). -/
def cleanWord (w : String) : String :=
  pyLower (String.mk (w.toList.filter Char.isAlphanum))

/-- One step of word-frequency counting: Python
`word_count[w] = word_count.get(w, 0) + 1` on an insertion-ordered dict,
modelled as an association list ordered by first insertion. -/
def addWordCount (m : List (String × Nat)) (w : String) : List (String × Nat) :=
  if m.any (fun p => p.1 == w) then
    m.map (fun p => if p.1 = w then (p.1, p.2 + 1) else p)
  else m ++ [(w, 1)]

/-- The `word_count` dict of `detect_flagged_words_server`: frequencies of
cleaned tokens of length `> 2`, in first-occurrence order. -/
def buildWordCount (text : String) : List (String × Nat) :=
  (pySplit (pyLower text)).foldl
    (fun m w =>
      let cw := cleanWord w
      if 2 < cw.length then addWordCount m cw else m)
    []

def profanityWords : List String :=
  ["damn", "hell", "shit", "fuck", "bitch", "asshole", "bastard", "crap",
   "piss", "dick", "cock", "pussy", "tits", "ass", "cum", "jerk"]

def sensitiveWords : List String :=
  ["kill", "death", "die", "dead", "suicide", "abuse", "rape", "violence",
   "hate", "racist", "sexist", "discrimination", "harassment", "bullying"]

def urgencyWords : List String :=
  ["emergency", "urgent", "crisis", "critical", "immediate", "asap",
   "priority", "important", "attention", "warning", "alert", "help",
   "problem", "issue", "trouble", "worried", "concerned", "serious"]

def medicalWords : List String :=
  ["pain", "hurt", "injury", "illness", "disease", "sick", "hospital",
   "doctor", "medication", "treatment", "symptoms", "diagnosis", "health",
   "medicine", "therapy", "appointment", "checkup", "condition"]

def positiveWords : List String :=
  ["happy", "great", "excellent", "amazing", "wonderful", "fantastic",
   "awesome", "brilliant", "perfect", "love", "excited", "thrilled",
   "delighted", "pleased", "satisfied", "joy", "cheerful", "optimistic",
   "hopeful", "grateful", "thankful", "blessed", "proud", "confident",
   "successful", "achieved", "accomplished", "victory", "win", "celebrate",
   "good", "nice", "better", "best", "well", "fine", "okay", "yes",
   "right", "correct", "true", "sure", "absolutely", "definitely"]

/-- The `flagged_categories` dict, in its Python insertion order. -/
def flaggedCategories : List (String × List String) :=
  [("profanity", profanityWords), ("sensitive", sensitiveWords),
   ("urgency", urgencyWords), ("medical", medicalWords),
   ("positive", positiveWords)]

/-- The severity assigned to a lexicon category:
`'high' if category in ['profanity', 'sensitive'] else 'medium' if category
== 'urgency' else 'low'`. -/
def severityFor (cat : String) : String :=
  if cat = "profanity" ∨ cat = "sensitive" then "high"
  else if cat = "urgency" then "medium"
  else "low"

/-- One entry of the flagged-word list. -/
structure FlaggedWord where
  word : String
  category : String
  frequency : Nat
  severity : String
deriving DecidableEq, Repr

/-- The entry emitted for lexicon word `w` of category `cat` when `w` is
present in the frequency table. -/
def lexEmit (wc : List (String × Nat)) (cat : String) (w : String) :
    Option FlaggedWord :=
  (List.lookup w wc).map (fun n => ⟨w, cat, n, severityFor cat⟩)

/-- The lexicon pass: for each category (in dict order) and each listed word
(in list order) present in the frequency table, emit an entry with the
observed frequency and the category severity. -/
def lexiconPass (wc : List (String × Nat)) : List FlaggedWord :=
  flaggedCategories.flatMap (fun cw => cw.2.filterMap (lexEmit wc cw.1))

/-- All lexicon words, in category order. -/
def allLexiconWords : List String :=
  flaggedCategories.flatMap (fun cw => cw.2)

/-- One step of the repetition pass.  `20 * c > total` is the exact
rational form of the float comparison `count / total_words > 0.05` (for the
integer ranges reachable here the two comparisons agree). -/
def repStep (total : Nat) (acc : List FlaggedWord) (p : String × Nat) :
    List FlaggedWord :=
  if 20 * p.2 > total ∧ p.2 > 3 then
    if ∀ fw ∈ acc, fw.word ≠ p.1 then acc ++ [⟨p.1, "repetitive", p.2, "low"⟩]
    else acc
  else acc

/-- Fold of `repStep` over the frequency table in dict order. -/
def repFold (total : Nat) (l : List (String × Nat)) (acc : List FlaggedWord) :
    List FlaggedWord :=
  l.foldl (repStep total) acc

/-- The repetition pass appended after the lexicon pass: flag tokens above
5% relative and 3 absolute frequency unless the word was already flagged. -/
def repetitivePass (wc : List (String × Nat)) (acc : List FlaggedWord) :
    List FlaggedWord :=
  repFold ((wc.map (fun p => p.2)).sum) wc acc

/-- `severity_order = {'high': 3, 'medium': 2, 'low': 1}`. -/
def sevRank (s : String) : Nat :=
  if s = "high" then 3 else if s = "medium" then 2 else 1

/-- The comparison used by the final sort: descending severity rank.  A new
element is inserted before elements of equal rank, which together with the
`insertionSort` recursion gives exactly the stable descending sort performed
by Python `list.sort(key=..., reverse=True)` (stable sorts are extensionally
unique). -/
def sevGe (a b : FlaggedWord) : Prop :=
  sevRank b.severity ≤ sevRank a.severity

instance : DecidableRel sevGe := fun a b =>
  Nat.decLe (sevRank b.severity) (sevRank a.severity)

instance : IsTotal FlaggedWord sevGe :=
  ⟨fun a b => Nat.le_total (sevRank b.severity) (sevRank a.severity)⟩

instance : IsTrans FlaggedWord sevGe :=
  ⟨fun _ _ _ h1 h2 => Nat.le_trans h2 h1⟩

/-- `detect_flagged_words_server` (nlp_processor_gcf.py 324-397). -/
def detect_flagged_words_server (text : String) : List FlaggedWord :=
  List.insertionSort sevGe
    (repetitivePass (buildWordCount text) (lexiconPass (buildWordCount text)))

/-! ### Shared result payload types -/

/-- One named entity of the response (`{text, label, score}`); the float
score is modelled as a rational. -/
structure Entity where
  text : String
  label : String
  score : ℚ
deriving DecidableEq, Repr

/-- The `topics` object of the response. -/
structure Topics where
  primary : String
  scores : List (String × ℚ)
deriving DecidableEq, Repr

/-! ### `analyze_transcription` of nlp_processor_gcf.py (lines 121-266)

External effects are supplied through a `GcfEnv` oracle: `fix` is the
contractions library, `audioT` the outcome of `transcribe_audio`, `models`
the outcome of `get_models`, and the four `...P` fields the observable
outcome of each prediction stage (payload on success, exception message on
failure). -/

structure GcfEnv where
  fix : String → String
  audioT : Except String String
  models : Except String Unit
  sentimentP : Except String String
  nerP : Except String (List Entity)
  posP : Except String (List (String × Nat))
  topicP : Except String Topics

/-- The result dict of the Flask variant.  `flagged_words` is an `Option`
because the key is absent until the flagged-words stage runs. -/
structure GcfResult where
  success : Bool
  sentiment : String
  entities : List Entity
  pos : List (String × Nat)
  topics : Topics
  word_count : Nat
  sentence_count : Nat
  char_count : Nat
  flagged_words : Option (List FlaggedWord)
  errors : List String
deriving DecidableEq, Repr

/-- The initial `result` dict (nlp_processor_gcf.py 123-133). -/
def gcfInit : GcfResult :=
  { success := false, sentiment := "neutral", entities := [], pos := [],
    topics := { primary := "general", scores := [] }, word_count := 0,
    sentence_count := 0, char_count := 0, flagged_words := none, errors := [] }

/-- `sentence_count`: `len([s for s in clean.split('.') if s.strip()])`. -/
def pySentenceCount (s : String) : Nat :=
  ((splitOnChar '.' s).filter (fun p => decide (pyStrip p ≠ ""))).length

/-- The basic statistics written into the result (lines 157-163). -/
def gcfStats (r : GcfResult) (clean : String) : GcfResult :=
  { r with char_count := clean.length,
           word_count := (pySplit clean).length,
           sentence_count := pySentenceCount clean }

/-- One `try`/`except` stage block: on success apply the payload update, on
failure append the stage error message. -/
def gcfStage (tag : String) (upd : α → GcfResult → GcfResult)
    (o : Except String α) (r : GcfResult) : GcfResult :=
  match o with
  | .ok a => upd a r
  | .error e => { r with errors := r.errors ++ [tag ++ e] }

/-- The error entries a stage contributes. -/
def stageErrList (tag : String) (o : Except String α) : List String :=
  match o with
  | .ok _ => []
  | .error e => [tag ++ e]

/-- Lines 137-146: when the text is empty/blank and an audio URL is given,
try Whisper transcription; a transcription failure appends its error and
raises `ValueError`.  Raised exceptions are returned as `.error` carrying
the exception message and the result state at raise time. -/
def gcfResolveText (env : GcfEnv) (transcription audio_url : String)
    (r : GcfResult) : Except (String × GcfResult) (String × GcfResult) :=
  if pyStrip transcription = "" then
    if audio_url ≠ "" then
      match env.audioT with
      | .ok t2 => .ok (t2, r)
      | .error ae =>
        .error ("No transcription text available and audio transcription failed",
          { r with errors := r.errors ++ ["Audio transcription failed: " ++ ae] })
    else .ok (transcription, r)
  else .ok (transcription, r)

/-- Lines 157-261: statistics, model acquisition (a failure returns partial
results with `success = True`), the four isolated inference stages, the
flagged-words stage (total in this model, as in the source it has no
external dependency), then `success = True`. -/
def gcfAnalyzeClean (env : GcfEnv) (clean : String) (r : GcfResult) : GcfResult :=
  let r := gcfStats r clean
  match env.models with
  | .error me =>
    { r with errors := r.errors ++ ["Model loading failed: " ++ me], success := true }
  | .ok _ =>
    let r := gcfStage ("Sentiment failed: ") (fun l r => { r with sentiment := l })
      env.sentimentP r
    let r := gcfStage ("NER failed: ") (fun es r => { r with entities := es })
      env.nerP r
    let r := gcfStage ("POS failed: ") (fun pc r => { r with pos := pc })
      env.posP r
    let r := gcfStage ("Topic failed: ") (fun tp r => { r with topics := tp })
      env.topicP r
    let r := { r with flagged_words := some (detect_flagged_words_server clean) }
    { r with success := true }

/-- The body of the outer `try` of `analyze_transcription`; `.error`
represents a raised exception together with the partially filled result. -/
def analyze_transcription_gcf_core (env : GcfEnv) (transcription audio_url : String) :
    Except (String × GcfResult) GcfResult :=
  match gcfResolveText env transcription audio_url gcfInit with
  | .error er => .error er
  | .ok (t, r) =>
    if t = "" then .error ("Invalid transcription input", r)
    else if env.fix (pyStrip t) = "" then
      .error ("Empty transcription after cleaning", r)
    else .ok (gcfAnalyzeClean env (env.fix (pyStrip t)) r)

/-- `analyze_transcription` (nlp_processor_gcf.py 121-266): the outer
`except` converts every raised exception into a returned result with the
critical error appended. -/
def analyze_transcription_gcf (env : GcfEnv) (transcription audio_url : String) :
    GcfResult :=
  match analyze_transcription_gcf_core env transcription audio_url with
  | .ok r => r
  | .error (e, r) => { r with errors := r.errors ++ ["Critical error: " ++ e] }

/-- An HTTP response of the Flask endpoint: status plus either an analysis
result body or an error body. -/
structure HttpOut where
  status : Nat
  result : Option GcfResult
  errorMsg : Option String
deriving DecidableEq, Repr

/-- `nlp_analyze` of nlp_processor_gcf.py (lines 399-471), after successful
authentication (authentication and CORS are out of scope).  The `ValueError`
(400) and generic (500) handlers at lines 459-471 have no reachable raise
site after this point because `analyze_transcription` is total. -/
def nlp_analyze_gcf (env : GcfEnv) (transcriptionRaw audioUrlRaw : String) :
    HttpOut :=
  let transcription := pyStrip transcriptionRaw
  let audio_url := pyStrip audioUrlRaw
  if transcription = "" ∧ audio_url = "" then
    { status := 400, result := none,
      errorMsg := some ("No transcription or audio URL provided") }
  else
    { status := 200,
      result := some (analyze_transcription_gcf env transcription audio_url),
      errorMsg := none }

/-! ### `analyze_transcription` of main.py (lines 232-313)

Here only the POS and topic stages are individually guarded; a sentiment or
NER prediction failure, and any model-loading failure, escapes through the
re-raising outer handler.  Exceptions are typed so the endpoint can map
`ValueError` to 400 and everything else to 500. -/

inductive PyErr where
  | valueError (msg : String)
  | other (msg : String)
deriving DecidableEq, Repr

structure MainEnv where
  fix : String → String
  /-- `get_models` outcome: on success, availability of the POS and topic
  handles (sentiment and NER handles are always present on success). -/
  getModels : Except String (Bool × Bool)
  sentimentP : Except String (String × ℚ)
  nerP : Except String (List Entity)
  posP : Except String (List (String × Nat))
  topicP : Except String Topics

/-- The result dict of main.py `analyze_transcription`.  The word count
(`len(sentence)` flair tokens) is modelled with whitespace tokens and the
sentence count (segtok splitter) with the period-based count; neither value
is inspected by any claim. -/
structure MainResult where
  success : Bool
  sentimentLabel : String
  sentimentScore : ℚ
  entities : List Entity
  pos : List (String × Nat)
  topics : Topics
  words : Nat
  sentences : Nat
  chars : Nat
deriving DecidableEq, Repr

/-- `analyze_transcription` (main.py 232-313).  The outer handler re-raises,
so every failure surfaces as `.error`. -/
def analyze_transcription_main (env : MainEnv) (transcription : String) :
    Except PyErr MainResult :=
  if transcription = "" then .error (.valueError ("Invalid transcription input"))
  else
    let clean := env.fix (pyStrip transcription)
    if clean = "" then .error (.valueError ("Empty transcription after cleaning"))
    else
      match env.getModels with
      | .error e => .error (.other e)
      | .ok (posAvail, topicAvail) =>
        match env.sentimentP with
        | .error e => .error (.other e)
        | .ok ls =>
          match env.nerP with
          | .error e => .error (.other e)
          | .ok ents =>
            let posCounts := if posAvail then
                (match env.posP with
                 | .ok pc => pc
                 | .error _ => [])
              else []
            let topics := if topicAvail then
                (match env.topicP with
                 | .ok tp => tp
                 | .error _ => { primary := "unavailable", scores := [] })
              else { primary := "unavailable", scores := [] }
            .ok { success := true, sentimentLabel := ls.1, sentimentScore := ls.2,
                  entities := ents, pos := posCounts, topics := topics,
                  words := (pySplit clean).length,
                  sentences := pySentenceCount clean, chars := clean.length }

/-! ### `transcribe_gcs` (main.py 176-230) and `nlp_analyze` (main.py 315-383) -/

/-- Outcomes of the two Speech-to-Text attempts: the WebM/Opus primary
configuration and the generic Linear16 fallback configuration.  A successful
attempt yields the list of per-segment top transcripts. -/
structure TranscribeEnv where
  primary : Except String (List String)
  fallback : Except String (List String)

/-- `transcript += result.alternatives[0].transcript + " "` then `.strip()`. -/
def concatTranscript (segs : List String) : String :=
  pyStrip (segs.foldl (fun a s => a ++ s ++ " ") "")

/-- `transcribe_gcs` (main.py 176-230): try the primary configuration; on
any error retry once with the fallback configuration; raise the fallback
error only if both attempts fail. -/
def transcribe_gcs (te : TranscribeEnv) : Except String String :=
  match te.primary with
  | .ok segs => .ok (concatTranscript segs)
  | .error _ =>
    match te.fallback with
    | .ok segs => .ok (concatTranscript segs)
    | .error e2 => .error e2

/-- Whether an `Except` outcome is an error. -/
def isErr : Except ε α → Bool
  | .error _ => true
  | .ok _ => false

/-- Possible response bodies of main.py `nlp_analyze`. -/
inductive MainBody where
  /-- 200 analysis body; the transcription field is set on the audio path. -/
  | analysis (r : MainResult) (transcription : Option String)
  /-- 200 body `{success: False, error: "Transcription yielded no text"}`. -/
  | noSpeech (msg : String)
  /-- an error body (400/500). -/
  | errorBody (msg : String)
deriving DecidableEq, Repr

/-- `nlp_analyze` (main.py 315-383) after successful authentication: audio
is transcribed first (500 on a transcription exception, a 200 no-speech body
on an empty transcript); then nonempty text is analyzed, `ValueError`
mapping to 400 and other exceptions to 500. -/
def nlp_analyze_main (env : MainEnv) (te : TranscribeEnv)
    (textRaw audioUrlRaw : String) : Nat × MainBody :=
  let text := pyStrip textRaw
  let audio_uri := pyStrip audioUrlRaw
  if audio_uri ≠ "" then
    match transcribe_gcs te with
    | .error e => (500, .errorBody ("Transcription failed: " ++ e))
    | .ok t =>
      if t = "" then (200, .noSpeech ("Transcription yielded no text"))
      else
        match analyze_transcription_main env t with
        | .ok r => (200, .analysis r (some t))
        | .error (.valueError m) => (400, .errorBody m)
        | .error (.other _) => (500, .errorBody ("Internal server error"))
  else if text ≠ "" then
    match analyze_transcription_main env text with
    | .ok r => (200, .analysis r none)
    | .error (.valueError m) => (400, .errorBody m)
    | .error (.other _) => (500, .errorBody ("Internal server error"))
  else (400, .errorBody ("No text provided and no audio to transcribe"))

/-! ### `get_models` of main.py (lines 83-149)

The filesystem (`.exists()`) and each model-load call are oracles.  Loaded
handles are distinguishable values (`Nat`), so overwriting a handle is
observable.  The module-level cache is threaded as explicit state; partial
assignments made before a raise persist, as Python globals do.  Besides the
cache and the returned tuple, the model records which capabilities this
invocation attempted to acquire, so that claims about acquisition
independence are expressible. -/

structure MainLoadEnv where
  sentPathExists : Bool
  sentLocal : Except String Nat
  sentRemote : Except String Nat
  nerPathExists : Bool
  nerLocal : Except String Nat
  nerRemote : Except String Nat
  posPathExists : Bool
  posLocal : Except String Nat
  posRemote : Except String Nat
  topicPathExists : Bool
  topicLocal : Except String Nat
  topicRemote : Except String Nat

/-- The four module-level model globals (None = unset or unavailable). -/
structure ModelCache where
  sent : Option Nat
  ner : Option Nat
  pos : Option Nat
  topic : Option Nat
deriving DecidableEq, Repr

/-- Which capabilities an invocation attempted to acquire. -/
structure Attempts where
  sent : Bool
  ner : Bool
  pos : Bool
  topic : Bool
deriving DecidableEq, Repr

/-- The sentiment block (main.py 89-95).  Faithful to the source,
including its dedentation slip: the load of the named remote model at line
95 sits OUTSIDE the `else` branch, so after a successful local load the
remote load still runs and overwrites the handle. -/
def loadSentimentMain (env : MainLoadEnv) (st : ModelCache) :
    ModelCache × Bool × Option String :=
  if st.sent.isSome then (st, false, none)
  else
    let first : ModelCache × Option String :=
      if env.sentPathExists then
        match env.sentLocal with
        | .ok h => ({ st with sent := some h }, none)
        | .error e => (st, some e)
      else (st, none)
    match first with
    | (st1, some e) => (st1, true, some e)
    | (st1, none) =>
      match env.sentRemote with
      | .ok h => ({ st1 with sent := some h }, true, none)
      | .error e => (st1, true, some e)

/-- The NER block (main.py 98-105): local artifact when present, otherwise
the remote fast variant; a failure of either propagates. -/
def loadNerMain (env : MainLoadEnv) (st : ModelCache) :
    ModelCache × Bool × Option String :=
  if st.ner.isSome then (st, false, none)
  else if env.nerPathExists then
    match env.nerLocal with
    | .ok h => ({ st with ner := some h }, true, none)
    | .error e => (st, true, some e)
  else
    match env.nerRemote with
    | .ok h => ({ st with ner := some h }, true, none)
    | .error e => (st, true, some e)

/-- The POS block (main.py 108-123): a failing local load propagates, while
the remote fallback download is guarded and leaves the handle `None`. -/
def loadPosMain (env : MainLoadEnv) (st : ModelCache) :
    ModelCache × Bool × Option String :=
  if st.pos.isSome then (st, false, none)
  else if env.posPathExists then
    match env.posLocal with
    | .ok h => ({ st with pos := some h }, true, none)
    | .error e => (st, true, some e)
  else
    match env.posRemote with
    | .ok h => ({ st with pos := some h }, true, none)
    | .error _ => ({ st with pos := none }, true, none)

/-- The topic block (main.py 126-138), same guarded-fallback shape as POS. -/
def loadTopicMain (env : MainLoadEnv) (st : ModelCache) :
    ModelCache × Bool × Option String :=
  if st.topic.isSome then (st, false, none)
  else if env.topicPathExists then
    match env.topicLocal with
    | .ok h => ({ st with topic := some h }, true, none)
    | .error e => (st, true, some e)
  else
    match env.topicRemote with
    | .ok h => ({ st with topic := some h }, true, none)
    | .error _ => ({ st with topic := none }, true, none)

/-- `get_models` (main.py 83-149): the four blocks run sequentially inside
one `try`; the outer handler re-raises, so the first propagating failure
aborts the remaining blocks. -/
def get_models_main (env : MainLoadEnv) (st : ModelCache) :
    ModelCache × Attempts ×
      Except String (Option Nat × Option Nat × Option Nat × Option Nat) :=
  match loadSentimentMain env st with
  | (st1, aS, some e) => (st1, ⟨aS, false, false, false⟩, .error e)
  | (st1, aS, none) =>
    match loadNerMain env st1 with
    | (st2, aN, some e) => (st2, ⟨aS, aN, false, false⟩, .error e)
    | (st2, aN, none) =>
      match loadPosMain env st2 with
      | (st3, aP, some e) => (st3, ⟨aS, aN, aP, false⟩, .error e)
      | (st3, aP, none) =>
        match loadTopicMain env st3 with
        | (st4, aT, some e) => (st4, ⟨aS, aN, aP, aT⟩, .error e)
        | (st4, aT, none) =>
          (st4, ⟨aS, aN, aP, aT⟩, .ok (st4.sent, st4.ner, st4.pos, st4.topic))

/-! ### `get_models` of nlp_processor_gcf.py (lines 73-119) -/

/-- Load outcomes for the fast pass and the standard fallback pass. -/
structure GcfLoadEnv where
  sentFast : Except String Nat
  nerFast : Except String Nat
  posFast : Except String Nat
  topicFast : Except String Nat
  sentStd : Except String Nat
  nerStd : Except String Nat
  posStd : Except String Nat
  topicStd : Except String Nat

/-- One pass of the Flask loader: load each still-missing model in order,
halting at the first failure. -/
def gcfPass (sentL nerL posL topicL : Except String Nat) (st : ModelCache) :
    ModelCache × Attempts × Option String :=
  let step : Option Nat → Except String Nat →
      Option Nat × Bool × Option String := fun cur l =>
    match cur with
    | some h => (some h, false, none)
    | none =>
      match l with
      | .ok h => (some h, true, none)
      | .error e => (none, true, some e)
  match step st.sent sentL with
  | (s, aS, some e) => ({ st with sent := s }, ⟨aS, false, false, false⟩, some e)
  | (s, aS, none) =>
    match step st.ner nerL with
    | (n, aN, some e) => ({ st with sent := s, ner := n }, ⟨aS, aN, false, false⟩, some e)
    | (n, aN, none) =>
      match step st.pos posL with
      | (p, aP, some e) =>
        ({ st with sent := s, ner := n, pos := p }, ⟨aS, aN, aP, false⟩, some e)
      | (p, aP, none) =>
        match step st.topic topicL with
        | (t, aT, some e) =>
          ({ st with sent := s, ner := n, pos := p, topic := t },
            ⟨aS, aN, aP, aT⟩, some e)
        | (t, aT, none) =>
          ({ st with sent := s, ner := n, pos := p, topic := t },
            ⟨aS, aN, aP, aT⟩, none)

/-- Attempted in either pass. -/
def orAttempts (a b : Attempts) : Attempts :=
  ⟨a.sent || b.sent, a.ner || b.ner, a.pos || b.pos, a.topic || b.topic⟩

/-- `get_models` (nlp_processor_gcf.py 73-119): a fast pass; on its failure
a single standard-model fallback pass over the still-missing models; if the
fallback pass also fails, the ORIGINAL fast-pass error is re-raised
(`raise e`). -/
def get_models_gcf (env : GcfLoadEnv) (st : ModelCache) :
    ModelCache × Attempts × Except String ModelCache :=
  match gcfPass env.sentFast env.nerFast env.posFast env.topicFast st with
  | (st1, a1, none) => (st1, a1, .ok st1)
  | (st1, a1, some e) =>
    match gcfPass env.sentStd env.nerStd env.posStd env.topicStd st1 with
    | (st2, a2, none) => (st2, orAttempts a1 a2, .ok st2)
    | (st2, a2, some _) => (st2, orAttempts a1 a2, .error e)

/-! ### Helper lemmas -/

lemma pyStrip_empty : pyStrip ("") = "" := rfl

/-! ### Claim theorems -/

/-- C7: the locator rewrite maps the web-facing storage URL
`https://firebasestorage.googleapis.com/v0/b/mybucket/o/folder%2Ffile.wav?token=x`
to `gs://mybucket/folder/file.wav` (bucket extracted, object path
percent-decoded), and returns unchanged every input that does not start with
the web-facing prefix or whose path does not match the
`/v0/b/<bucket>/o/<object>` shape. -/
theorem c7_locator_rewrite :
    convert_to_gs_uri
        ("https://firebasestorage.googleapis.com/v0/b/mybucket/o/folder%2Ffile.wav?token=x")
      = ("gs://mybucket/folder/file.wav")
    ∧ (∀ url : String, pyStartsWith url firebasePrefix = false →
        convert_to_gs_uri url = url)
    ∧ (∀ url : String,
        ¬ (5 < (splitOnChar '/' (pathOfUrl url)).length
           ∧ (splitOnChar '/' (pathOfUrl url)).getD 2 "" = "b"
           ∧ (splitOnChar '/' (pathOfUrl url)).getD 4 "" = "o") →
        convert_to_gs_uri url = url) := by
  refine ⟨by decide, ?_, ?_⟩
  · intro url h
    unfold convert_to_gs_uri
    rw [if_pos]
    exact Or.inr (by simp [h])
  · intro url h
    unfold convert_to_gs_uri
    by_cases h0 : url = "" ∨ ¬ pyStartsWith url firebasePrefix
    · rw [if_pos h0]
    · rw [if_neg h0, if_neg h]

theorem c7_witness :
    pyStartsWith ("gs://cloud/audio.wav") firebasePrefix = false
    ∧ convert_to_gs_uri ("gs://cloud/audio.wav") = ("gs://cloud/audio.wav") :=
  ⟨by decide, c7_locator_rewrite.2.1 ("gs://cloud/audio.wav") (by decide)⟩

/-- C4: evaluation of the `get_models` embedding exhibiting the dedentation
slip at main.py line 95.  First conjunct: with the local sentiment artifact
present and both loads succeeding, the cached sentiment handle is the REMOTE
one (handle 2), not the local one (handle 1) — the remote fetch is not used
"only as a fallback when the local artifact is absent".  Second conjunct:
with a good local artifact, a failing remote fetch still aborts the whole
loader. -/
theorem c4_sentiment_fallback_bug :
    ((get_models_main
        { sentPathExists := true, sentLocal := .ok 1, sentRemote := .ok 2,
          nerPathExists := true, nerLocal := .ok 3, nerRemote := .ok 30,
          posPathExists := true, posLocal := .ok 4, posRemote := .ok 40,
          topicPathExists := true, topicLocal := .ok 5, topicRemote := .ok 50 }
        ⟨none, none, none, none⟩).1.sent = some 2)
    ∧ ((get_models_main
        { sentPathExists := true, sentLocal := .ok 1,
          sentRemote := .error ("network unavailable"),
          nerPathExists := true, nerLocal := .ok 3, nerRemote := .ok 30,
          posPathExists := true, posLocal := .ok 4, posRemote := .ok 40,
          topicPathExists := true, topicLocal := .ok 5, topicRemote := .ok 50 }
        ⟨none, none, none, none⟩).2.2 = .error ("network unavailable")) :=
  ⟨by decide, by rfl⟩

/-- C3 counterexample: on a fresh cache, when the sentiment acquisition
fails (no local artifact, remote download fails) while every other
capability is loadable, `get_models` raises and the NER, POS and topic
acquisitions are never attempted — refuting "a load failure of one
capability never prevents the loader from attempting to acquire the
others". -/
theorem c3_counterexample :
    (get_models_main
        { sentPathExists := false, sentLocal := .ok 1,
          sentRemote := .error ("sentiment download failed"),
          nerPathExists := false, nerLocal := .ok 3, nerRemote := .ok 30,
          posPathExists := false, posLocal := .ok 4, posRemote := .ok 40,
          topicPathExists := false, topicLocal := .ok 5, topicRemote := .ok 50 }
        ⟨none, none, none, none⟩).2.1 = ⟨true, false, false, false⟩ := by decide

/-- C3 amended: in main.py, only the POS and topic remote-fallback download
failures are isolated: when sentiment and NER load successfully and the POS
and topic local artifacts are absent, all four acquisitions are attempted
and each POS/topic outcome is recorded independently (`none` on a failed
download) without blocking the loader.  In the Flask variant, a fast-pass
failure aborts that pass, but a single standard-model fallback pass then
attempts every still-missing capability. -/
theorem c3_amended_independent_acquisition :
    (∀ (env : MainLoadEnv) (hs hn : Nat),
      env.sentPathExists = false → env.sentRemote = .ok hs →
      env.nerPathExists = false → env.nerRemote = .ok hn →
      env.posPathExists = false → env.topicPathExists = false →
      get_models_main env ⟨none, none, none, none⟩ =
        (⟨some hs, some hn, env.posRemote.toOption, env.topicRemote.toOption⟩,
         ⟨true, true, true, true⟩,
         .ok (some hs, some hn, env.posRemote.toOption, env.topicRemote.toOption)))
    ∧
    (∀ (env : GcfLoadEnv) (e : String) (a b c d : Nat),
      env.sentFast = .error e → env.sentStd = .ok a → env.nerStd = .ok b →
      env.posStd = .ok c → env.topicStd = .ok d →
      get_models_gcf env ⟨none, none, none, none⟩ =
        (⟨some a, some b, some c, some d⟩, ⟨true, true, true, true⟩,
         .ok ⟨some a, some b, some c, some d⟩)) := by
  constructor
  · intro env hs hn h1 h2 h3 h4 h5 h6
    cases hp : env.posRemote <;> cases ht : env.topicRemote <;>
      simp [get_models_main, loadSentimentMain, loadNerMain, loadPosMain,
        loadTopicMain, h1, h2, h3, h4, h5, h6, hp, ht, Except.toOption]
  · intro env e a b c d h1 h2 h3 h4 h5
    simp [get_models_gcf, gcfPass, orAttempts, h1, h2, h3, h4, h5]

lemma ne_nil_of_pyStrip {s : String} (h : pyStrip s ≠ "") : s ≠ "" :=
  fun he => h (by rw [he]; rfl)

/-- C6: `transcribe_gcs` errors iff both the primary-encoding attempt and
the generic-fallback attempt error; when the primary attempt succeeds the
fallback is never consulted, and a primary failure triggers exactly one
retry with the fallback configuration; an empty-but-successful transcript
reaches the endpoint as the explicit 200 no-speech body, distinct from the
500 processing-error body produced when both attempts fail. -/
theorem c6_transcription_fallback :
    (∀ te : TranscribeEnv,
      isErr (transcribe_gcs te) = (isErr te.primary && isErr te.fallback))
    ∧ (∀ (segs : List String) (fb : Except String (List String)),
        transcribe_gcs ⟨.ok segs, fb⟩ = .ok (concatTranscript segs))
    ∧ (∀ (e : String) (segs : List String),
        transcribe_gcs ⟨.error e, .ok segs⟩ = .ok (concatTranscript segs))
    ∧ (∀ e e2 : String, transcribe_gcs ⟨.error e, .error e2⟩ = .error e2)
    ∧ (∀ (env : MainEnv) (te : TranscribeEnv) (text audio : String),
        pyStrip audio ≠ "" → transcribe_gcs te = .ok "" →
        nlp_analyze_main env te text audio =
          (200, .noSpeech ("Transcription yielded no text")))
    ∧ (∀ (env : MainEnv) (te : TranscribeEnv) (text audio e : String),
        pyStrip audio ≠ "" → transcribe_gcs te = .error e →
        nlp_analyze_main env te text audio =
          (500, .errorBody ("Transcription failed: " ++ e))) := by
  refine ⟨?_, ?_, ?_, ?_, ?_, ?_⟩
  · rintro ⟨p, f⟩
    cases p <;> cases f <;> simp [transcribe_gcs, isErr]
  · intro segs fb
    simp [transcribe_gcs]
  · intro e segs
    simp [transcribe_gcs]
  · intro e e2
    simp [transcribe_gcs]
  · intro env te text audio h1 h2
    simp [nlp_analyze_main, h1, h2]
  · intro env te text audio e h1 h2
    simp [nlp_analyze_main, h1, h2]

theorem c6_witness :
    (pyStrip ("gs://bucket/silence.webm") ≠ ""
      ∧ transcribe_gcs ⟨.ok [], .ok []⟩ = .ok ""
      ∧ nlp_analyze_main
          { fix := fun s => s, getModels := .ok (true, true),
            sentimentP := .ok ("POSITIVE", 1), nerP := .ok [], posP := .ok [],
            topicP := .ok ⟨"health", []⟩ }
          ⟨.ok [], .ok []⟩ ("") ("gs://bucket/silence.webm") =
          (200, .noSpeech ("Transcription yielded no text")))
    ∧ (transcribe_gcs ⟨.error ("bad encoding"), .error ("bad rate")⟩ =
        .error ("bad rate")
      ∧ nlp_analyze_main
          { fix := fun s => s, getModels := .ok (true, true),
            sentimentP := .ok ("POSITIVE", 1), nerP := .ok [], posP := .ok [],
            topicP := .ok ⟨"health", []⟩ }
          ⟨.error ("bad encoding"), .error ("bad rate")⟩ ("") ("gs://bucket/silence.webm") =
          (500, .errorBody ("Transcription failed: " ++ "bad rate"))) :=
  ⟨⟨by decide, by rfl,
    c6_transcription_fallback.2.2.2.2.1 _ _ ("") ("gs://bucket/silence.webm")
      (by decide) (by rfl)⟩,
   ⟨by rfl,
    c6_transcription_fallback.2.2.2.2.2 _ _ ("") ("gs://bucket/silence.webm")
      ("bad rate") (by decide) (by rfl)⟩⟩

/-- C1 amended: in the Flask deployment (`nlp_processor_gcf.py`), for every
normalized non-empty input and every configuration of stage outcomes, each
stage failure is caught and recorded as exactly that stage's error entry,
the other stages still run (their payloads land in the result), and the
analysis returns with `success = true`.  In the main.py deployment this
isolation holds only for the POS and topic stages: with sentiment and NER
succeeding, the function returns normally whatever the POS/topic outcomes;
the counterexample shows a sentiment failure propagating. -/
theorem c1_amended_stage_isolation :
    (∀ (env : GcfEnv) (t a : String),
      pyStrip t ≠ "" → env.fix (pyStrip t) ≠ "" → env.models = .ok () →
      (analyze_transcription_gcf env t a).success = true
      ∧ (analyze_transcription_gcf env t a).errors =
          stageErrList ("Sentiment failed: ") env.sentimentP
          ++ stageErrList ("NER failed: ") env.nerP
          ++ stageErrList ("POS failed: ") env.posP
          ++ stageErrList ("Topic failed: ") env.topicP
      ∧ (∀ l, env.sentimentP = .ok l → (analyze_transcription_gcf env t a).sentiment = l)
      ∧ (∀ es, env.nerP = .ok es → (analyze_transcription_gcf env t a).entities = es)
      ∧ (∀ pc, env.posP = .ok pc → (analyze_transcription_gcf env t a).pos = pc)
      ∧ (∀ tp, env.topicP = .ok tp → (analyze_transcription_gcf env t a).topics = tp))
    ∧
    (∀ (env : MainEnv) (t : String) (pa ta : Bool) (ls : String × ℚ) (es : List Entity),
      t ≠ "" → env.fix (pyStrip t) ≠ "" → env.getModels = .ok (pa, ta) →
      env.sentimentP = .ok ls → env.nerP = .ok es →
      isErr (analyze_transcription_main env t) = false) := by
  constructor
  · intro env t a h1 h2 hm
    have ht : t ≠ "" := ne_nil_of_pyStrip h1
    rcases env with ⟨fix, audioT, models, sP, nP, pP, tP⟩
    simp only at h2 hm
    subst hm
    cases sP <;> cases nP <;> cases pP <;> cases tP <;>
      simp [analyze_transcription_gcf, analyze_transcription_gcf_core,
        gcfResolveText, gcfAnalyzeClean, gcfStage, stageErrList, gcfStats,
        gcfInit, h1, h2, ht]
  · intro env t pa ta ls es h1 h2 hm hs hn
    cases hp : env.posP <;> cases htp : env.topicP <;>
      simp [analyze_transcription_main, isErr, h1, h2, hm, hs, hn, hp, htp]

/-- C1 counterexample: in main.py `analyze_transcription`, a sentiment-stage
exception is NOT caught — it propagates out of the analysis function. -/
theorem c1_counterexample :
    analyze_transcription_main
      { fix := fun s => s, getModels := .ok (true, true),
        sentimentP := .error ("sentiment prediction failed"),
        nerP := .ok [], posP := .ok [], topicP := .ok ⟨"health", []⟩ }
      ("hello world") = .error (.other ("sentiment prediction failed")) := by rfl

theorem c1_witness :
    pyStrip ("we will see") ≠ ""
    ∧ (analyze_transcription_gcf
        { fix := fun s => s, audioT := .ok "", models := .ok (),
          sentimentP := .error ("sentiment broke"), nerP := .ok [],
          posP := .error ("pos broke"), topicP := .ok ⟨"health", []⟩ }
        ("we will see") ("")).success = true
    ∧ isErr (analyze_transcription_main
        { fix := fun s => s, getModels := .ok (true, true),
          sentimentP := .ok ("POSITIVE", 1), nerP := .ok [],
          posP := .error ("pos broke"), topicP := .error ("topic broke") }
        ("hello friend")) = false :=
  ⟨by decide,
   (c1_amended_stage_isolation.1
      { fix := fun s => s, audioT := .ok "", models := .ok (),
        sentimentP := .error ("sentiment broke"), nerP := .ok [],
        posP := .error ("pos broke"), topicP := .ok ⟨"health", []⟩ }
      ("we will see") ("") (by decide) (by decide) rfl).1,
   c1_amended_stage_isolation.2
      { fix := fun s => s, getModels := .ok (true, true),
        sentimentP := .ok ("POSITIVE", 1), nerP := .ok [],
        posP := .error ("pos broke"), topicP := .error ("topic broke") }
      ("hello friend") true true ("POSITIVE", 1) [] (by decide) (by decide)
      rfl rfl rfl⟩

/-- C2 counterexample: in the main.py deployment, an input whose
normalization yields non-empty text but whose four inference stages all
fail is a HARD failure of the request: the stage exception escapes
`analyze_transcription` and the endpoint answers 500 with an error body —
no result, no statistics, no errors list — refuting "the returned
AnalysisResult has success = true and contains the basic statistics ...
never as a hard failure of the request". -/
theorem c2_counterexample :
    nlp_analyze_main
      { fix := fun s => s, getModels := .ok (true, true),
        sentimentP := .error ("sentiment crashed"),
        nerP := .error ("ner crashed"), posP := .error ("pos crashed"),
        topicP := .error ("topic crashed") }
      ⟨.ok [], .ok []⟩ ("the stats were fine") ("") =
      (500, .errorBody ("Internal server error")) := by rfl

/-- C2 amended: in the Flask deployment, whenever normalization (trim +
contraction expansion) yields non-empty text, the returned result has
`success = true` and carries the basic statistics computed from the cleaned
text, for every configuration of model-loading and stage outcomes —
including the one where every inference stage fails — with stage failures
appearing only as entries appended to `errors`.  In the main.py deployment
this holds only while the sentiment and NER stages succeed: a sentiment or
NER failure escapes the analysis and hard-fails the request (see the
counterexample above). -/
theorem c2_partial_results :
    ∀ (env : GcfEnv) (t a : String),
      pyStrip t ≠ "" → env.fix (pyStrip t) ≠ "" →
      (analyze_transcription_gcf env t a).success = true
      ∧ (analyze_transcription_gcf env t a).char_count = (env.fix (pyStrip t)).length
      ∧ (analyze_transcription_gcf env t a).word_count =
          (pySplit (env.fix (pyStrip t))).length
      ∧ (analyze_transcription_gcf env t a).sentence_count =
          pySentenceCount (env.fix (pyStrip t)) := by
  intro env t a h1 h2
  have ht : t ≠ "" := ne_nil_of_pyStrip h1
  rcases env with ⟨fix, audioT, models, sP, nP, pP, tP⟩
  simp only at h2
  cases models <;> [skip; cases sP <;> cases nP <;> cases pP <;> cases tP] <;>
    simp [analyze_transcription_gcf, analyze_transcription_gcf_core,
      gcfResolveText, gcfAnalyzeClean, gcfStage, gcfStats, gcfInit, h1, h2, ht]

theorem c2_witness :
    pyStrip ("bad bad day") ≠ ""
    ∧ ((analyze_transcription_gcf
        { fix := fun s => s, audioT := .error ("down"), models := .ok (),
          sentimentP := .error ("s down"), nerP := .error ("n down"),
          posP := .error ("p down"), topicP := .error ("t down") }
        ("bad bad day") ("")).success = true
      ∧ (analyze_transcription_gcf
        { fix := fun s => s, audioT := .error ("down"), models := .ok (),
          sentimentP := .error ("s down"), nerP := .error ("n down"),
          posP := .error ("p down"), topicP := .error ("t down") }
        ("bad bad day") ("")).char_count = (pyStrip ("bad bad day")).length) :=
  ⟨by decide,
   (c2_partial_results
      { fix := fun s => s, audioT := .error ("down"), models := .ok (),
        sentimentP := .error ("s down"), nerP := .error ("n down"),
        posP := .error ("p down"), topicP := .error ("t down") }
      ("bad bad day") ("") (by decide) (by decide)).1,
   (c2_partial_results
      { fix := fun s => s, audioT := .error ("down"), models := .ok (),
        sentimentP := .error ("s down"), nerP := .error ("n down"),
        posP := .error ("p down"), topicP := .error ("t down") }
      ("bad bad day") ("") (by decide) (by decide)).2.1⟩

lemma gcfAnalyzeClean_success (env : GcfEnv) (c : String) (r : GcfResult) :
    (gcfAnalyzeClean env c r).success = true := by
  unfold gcfAnalyzeClean
  cases env.models <;> simp

lemma core_ok_success (env : GcfEnv) (t a : String) (r : GcfResult)
    (h : analyze_transcription_gcf_core env t a = .ok r) : r.success = true := by
  unfold analyze_transcription_gcf_core gcfResolveText at h
  repeat'
    first
      | (split at h)
      | (injection h with h)
  all_goals
    first
      | (subst h; exact gcfAnalyzeClean_success ..)
      | simp_all [gcfAnalyzeClean_success]

lemma analyze_gcf_success_or_errors (env : GcfEnv) (t a : String) :
    (analyze_transcription_gcf env t a).success = true
    ∨ (analyze_transcription_gcf env t a).errors ≠ [] := by
  rcases hc : analyze_transcription_gcf_core env t a with er | r
  · unfold analyze_transcription_gcf
    rw [hc]
    rcases er with ⟨e, r0⟩
    right
    simp
  · unfold analyze_transcription_gcf
    rw [hc]
    exact Or.inl (core_ok_success env t a r hc)

/-- C10: the Flask `analyze_transcription` never raises to its caller: for
every oracle configuration and every input accepted by the endpoint gate,
the endpoint answers 200 with a result dict, and that dict either reports
success or carries error entries — the endpoint 400/500 handlers are
unreachable from within the analysis. -/
theorem c10_no_escape :
    ∀ (env : GcfEnv) (t a : String),
      ¬ (pyStrip t = "" ∧ pyStrip a = "") →
      (nlp_analyze_gcf env t a).status = 200
      ∧ (nlp_analyze_gcf env t a).result.isSome = true
      ∧ ∀ r, (nlp_analyze_gcf env t a).result = some r →
          r.success = true ∨ r.errors ≠ [] := by
  intro env t a h
  refine ⟨by simp [nlp_analyze_gcf, h], by simp [nlp_analyze_gcf, h], ?_⟩
  intro r hr
  simp [nlp_analyze_gcf, h] at hr
  rw [← hr]
  exact analyze_gcf_success_or_errors env (pyStrip t) (pyStrip a)

theorem c10_witness :
    ¬ (pyStrip ("all systems down") = "" ∧ pyStrip ("") = "")
    ∧ (nlp_analyze_gcf
        { fix := fun s => s, audioT := .error ("whisper down"),
          models := .error ("no models"), sentimentP := .error ("s"),
          nerP := .error ("n"), posP := .error ("p"), topicP := .error ("t") }
        ("all systems down") ("")).status = 200 :=
  ⟨by decide,
   (c10_no_escape
      { fix := fun s => s, audioT := .error ("whisper down"),
        models := .error ("no models"), sentimentP := .error ("s"),
        nerP := .error ("n"), posP := .error ("p"), topicP := .error ("t") }
      ("all systems down") ("") (by decide)).1⟩

/-- C5 amended: in main.py, a text request whose normalization yields empty
text fails with the `ValueError` mapped to HTTP 400, and a request with no
text and no audio yields 400.  In the Flask deployment the same
normalization failures are caught inside `analyze_transcription` and the
endpoint returns HTTP 200 with `success = false` and the error recorded in
`errors` — not 400. -/
theorem c5_amended_normalization_failure :
    (∀ (env : MainEnv) (te : TranscribeEnv) (text : String),
      pyStrip text ≠ "" → env.fix (pyStrip (pyStrip text)) = "" →
      nlp_analyze_main env te text ("") =
        (400, .errorBody ("Empty transcription after cleaning")))
    ∧ (∀ (env : MainEnv) (te : TranscribeEnv),
        nlp_analyze_main env te ("") ("") =
          (400, .errorBody ("No text provided and no audio to transcribe")))
    ∧ (∀ (env : GcfEnv) (t a : String),
        pyStrip (pyStrip t) ≠ "" → env.fix (pyStrip (pyStrip t)) = "" →
        (nlp_analyze_gcf env t a).status = 200
        ∧ ((nlp_analyze_gcf env t a).result.map GcfResult.success) = some false
        ∧ ((nlp_analyze_gcf env t a).result.map GcfResult.errors) =
            some [("Critical error: Empty transcription after cleaning")])
    ∧ (∀ (env : GcfEnv) (t a ae : String),
        pyStrip (pyStrip t) = "" → pyStrip a ≠ "" → env.audioT = .error ae →
        (nlp_analyze_gcf env t a).status = 200
        ∧ ((nlp_analyze_gcf env t a).result.map GcfResult.success) = some false
        ∧ ((nlp_analyze_gcf env t a).result.map GcfResult.errors) =
            some [("Audio transcription failed: " ++ ae),
              ("Critical error: No transcription text available and audio transcription failed")]) := by
  refine ⟨?_, ?_, ?_, ?_⟩
  · intro env te text h1 h2
    simp [nlp_analyze_main, pyStrip_empty, analyze_transcription_main, h1, h2,
      ne_nil_of_pyStrip h1]
  · intro env te
    simp [nlp_analyze_main, pyStrip_empty]
  · intro env t a h1 h2
    have h0 : pyStrip t ≠ "" := fun he => h1 (by rw [he]; rfl)
    have ht : pyStrip t ≠ "" := h0
    simp [nlp_analyze_gcf, analyze_transcription_gcf,
      analyze_transcription_gcf_core, gcfResolveText, gcfInit, h0, h1, h2,
      ne_nil_of_pyStrip h1]
  · intro env t a ae h1 h2 h3
    simp [nlp_analyze_gcf, analyze_transcription_gcf,
      analyze_transcription_gcf_core, gcfResolveText, gcfInit, h1, h2, h3,
      ne_nil_of_pyStrip h2]

/-- C5 counterexample: a request with empty text and an audio URL whose
transcription fails — a normalization failure (`InvalidInput`: empty text
and no usable audio) — is answered by the Flask endpoint with HTTP 200, not
400. -/
theorem c5_counterexample :
    (nlp_analyze_gcf
      { fix := fun s => s, audioT := .error ("Whisper API error: 500"),
        models := .ok (), sentimentP := .ok ("POSITIVE"), nerP := .ok [],
        posP := .ok [], topicP := .ok ⟨"health", []⟩ }
      ("") ("https://storage.example.com/audio.webm")).status = 200
    ∧ ((nlp_analyze_gcf
      { fix := fun s => s, audioT := .error ("Whisper API error: 500"),
        models := .ok (), sentimentP := .ok ("POSITIVE"), nerP := .ok [],
        posP := .ok [], topicP := .ok ⟨"health", []⟩ }
      ("") ("https://storage.example.com/audio.webm")).result.map GcfResult.success)
      = some false := by
  exact ⟨by rfl, by rfl⟩

theorem c3_witness :
    (get_models_main
        { sentPathExists := false, sentLocal := .ok 1, sentRemote := .ok 10,
          nerPathExists := false, nerLocal := .ok 3, nerRemote := .ok 11,
          posPathExists := false, posLocal := .ok 4,
          posRemote := .error ("pos download failed"),
          topicPathExists := false, topicLocal := .ok 5, topicRemote := .ok 13 }
        ⟨none, none, none, none⟩ =
      (⟨some 10, some 11, none, some 13⟩, ⟨true, true, true, true⟩,
       .ok (some 10, some 11, none, some 13)))
    ∧ (get_models_gcf
        { sentFast := .error ("fast sentiment failed"), nerFast := .ok 20,
          posFast := .ok 21, topicFast := .ok 22, sentStd := .ok 30,
          nerStd := .ok 31, posStd := .ok 32, topicStd := .ok 33 }
        ⟨none, none, none, none⟩ =
      (⟨some 30, some 31, some 32, some 33⟩, ⟨true, true, true, true⟩,
       .ok ⟨some 30, some 31, some 32, some 33⟩)) :=
  ⟨c3_amended_independent_acquisition.1
      { sentPathExists := false, sentLocal := .ok 1, sentRemote := .ok 10,
        nerPathExists := false, nerLocal := .ok 3, nerRemote := .ok 11,
        posPathExists := false, posLocal := .ok 4,
        posRemote := .error ("pos download failed"),
        topicPathExists := false, topicLocal := .ok 5, topicRemote := .ok 13 }
      10 11 rfl rfl rfl rfl rfl rfl,
   c3_amended_independent_acquisition.2
      { sentFast := .error ("fast sentiment failed"), nerFast := .ok 20,
        posFast := .ok 21, topicFast := .ok 22, sentStd := .ok 30,
        nerStd := .ok 31, posStd := .ok 32, topicStd := .ok 33 }
      ("fast sentiment failed") 30 31 32 33 rfl rfl rfl rfl rfl⟩

theorem c5_witness :
    (pyStrip ("hm") ≠ ""
      ∧ (fun _ => "") (pyStrip (pyStrip ("hm"))) = ""
      ∧ nlp_analyze_main
          { fix := fun _ => "", getModels := .ok (true, true),
            sentimentP := .ok ("POSITIVE", 1), nerP := .ok [], posP := .ok [],
            topicP := .ok ⟨"health", []⟩ }
          ⟨.ok [], .ok []⟩ ("hm") ("") =
          (400, .errorBody ("Empty transcription after cleaning")))
    ∧ (pyStrip (pyStrip ("")) = ""
      ∧ pyStrip ("https://x/a.webm") ≠ ""
      ∧ ((nlp_analyze_gcf
          { fix := fun s => s, audioT := .error ("whisper down"), models := .ok (),
            sentimentP := .ok ("POSITIVE"), nerP := .ok [], posP := .ok [],
            topicP := .ok ⟨"health", []⟩ }
          ("") ("https://x/a.webm")).result.map GcfResult.errors) =
          some [("Audio transcription failed: " ++ "whisper down"),
            ("Critical error: No transcription text available and audio transcription failed")]) :=
  ⟨⟨by decide, rfl,
    c5_amended_normalization_failure.1
      { fix := fun _ => "", getModels := .ok (true, true),
        sentimentP := .ok ("POSITIVE", 1), nerP := .ok [], posP := .ok [],
        topicP := .ok ⟨"health", []⟩ }
      ⟨.ok [], .ok []⟩ ("hm") (by decide) rfl⟩,
   ⟨rfl, by decide,
    (c5_amended_normalization_failure.2.2.2
      { fix := fun s => s, audioT := .error ("whisper down"), models := .ok (),
        sentimentP := .ok ("POSITIVE"), nerP := .ok [], posP := .ok [],
        topicP := .ok ⟨"health", []⟩ }
      ("") ("https://x/a.webm") ("whisper down") rfl (by decide) rfl).2.2⟩⟩

/-! ### Sorting lemmas (stability of the severity sort) -/

lemma filter_orderedInsert (k : Nat) (x : FlaggedWord) (l : List FlaggedWord) :
    (List.orderedInsert sevGe x l).filter (fun e => decide (sevRank e.severity = k))
    = if sevRank x.severity = k
      then x :: l.filter (fun e => decide (sevRank e.severity = k))
      else l.filter (fun e => decide (sevRank e.severity = k)) := by
  induction l with
  | nil => by_cases hx : sevRank x.severity = k <;> simp [List.orderedInsert, hx]
  | cons y ys ih =>
    by_cases hr : sevGe x y
    · by_cases hx : sevRank x.severity = k <;>
        simp [List.orderedInsert, hr, List.filter_cons, hx]
    · have hlt : sevRank x.severity < sevRank y.severity :=
        Nat.lt_of_not_le (fun hle => hr hle)
      by_cases hx : sevRank x.severity = k
      · have hy : ¬ sevRank y.severity = k := by
          intro hk
          rw [hx] at hlt
          rw [hk] at hlt
          exact Nat.lt_irrefl _ hlt
        simp [List.orderedInsert, hr, List.filter_cons, hx, hy, ih]
      · by_cases hy : sevRank y.severity = k <;>
          simp [List.orderedInsert, hr, List.filter_cons, hx, hy, ih]

lemma filter_insertionSort (k : Nat) (l : List FlaggedWord) :
    (List.insertionSort sevGe l).filter (fun e => decide (sevRank e.severity = k))
    = l.filter (fun e => decide (sevRank e.severity = k)) := by
  induction l with
  | nil => rfl
  | cons a l ih =>
    by_cases ha : sevRank a.severity = k <;>
      simp [List.insertionSort, filter_orderedInsert, ha, ih, List.filter_cons]

/-! ### No-duplicate-words lemmas -/

lemma allLex_nodup : allLexiconWords.Nodup := by decide

lemma map_word_filterMap_lexEmit (wc : List (String × Nat)) (cat : String)
    (ws : List String) :
    ((ws.filterMap (lexEmit wc cat)).map FlaggedWord.word)
      = ws.filter (fun w => (List.lookup w wc).isSome) := by
  induction ws with
  | nil => rfl
  | cons w ws ih =>
    cases h : List.lookup w wc <;>
      simp [List.filterMap_cons, lexEmit, h, ih, List.filter_cons]

lemma flatMap_filter_sublist (L : List (String × List String))
    (p : String → Bool) :
    (L.flatMap (fun cw => cw.2.filter p)).Sublist (L.flatMap (fun cw => cw.2)) := by
  induction L with
  | nil => simp
  | cons a L ih => simpa using (List.filter_sublist a.2).append ih

lemma lexiconPass_words_nodup (wc : List (String × Nat)) :
    ((lexiconPass wc).map FlaggedWord.word).Nodup := by
  have h1 : (lexiconPass wc).map FlaggedWord.word
      = flaggedCategories.flatMap
          (fun cw => cw.2.filter (fun w => (List.lookup w wc).isSome)) := by
    simp [lexiconPass, flaggedCategories, map_word_filterMap_lexEmit]
  rw [h1]
  exact allLex_nodup.sublist
    (flatMap_filter_sublist flaggedCategories (fun w => (List.lookup w wc).isSome))

lemma repStep_words_nodup (tot : Nat) (acc : List FlaggedWord) (p : String × Nat)
    (h : (acc.map FlaggedWord.word).Nodup) :
    ((repStep tot acc p).map FlaggedWord.word).Nodup := by
  unfold repStep
  split
  · split
    · rename_i hall
      have hnm : p.1 ∉ acc.map FlaggedWord.word := by
        intro hm
        rcases List.mem_map.mp hm with ⟨fw, hfw, he⟩
        exact hall fw hfw he
      simp [List.nodup_append, h, hnm]
    · exact h
  · exact h

lemma repFold_words_nodup (tot : Nat) :
    ∀ (l : List (String × Nat)) (acc : List FlaggedWord),
      (acc.map FlaggedWord.word).Nodup →
      ((repFold tot l acc).map FlaggedWord.word).Nodup := by
  intro l
  induction l with
  | nil => intro acc h; exact h
  | cons p l ih =>
    intro acc h
    rw [repFold, List.foldl_cons]
    exact ih (repStep tot acc p) (repStep_words_nodup tot acc p h)

/-- C8: for every input text, lexical flagging (a total function) returns a
list sorted by severity descending; no word appears in more than one entry;
and within each severity rank the output preserves the first-detection
(emission) order, i.e. filtering the output at any severity rank gives
exactly the pre-sort emission sequence at that rank. -/
theorem c8_flagging_invariants (text : String) :
    List.Sorted sevGe (detect_flagged_words_server text)
    ∧ ((detect_flagged_words_server text).map FlaggedWord.word).Nodup
    ∧ ∀ k : Nat,
        (detect_flagged_words_server text).filter
            (fun e => decide (sevRank e.severity = k))
        = (repetitivePass (buildWordCount text)
            (lexiconPass (buildWordCount text))).filter
            (fun e => decide (sevRank e.severity = k)) := by
  refine ⟨?_, ?_, ?_⟩
  · exact List.sorted_insertionSort sevGe _
  · exact (List.perm_insertionSort sevGe _).map FlaggedWord.word |>.nodup_iff.mpr
      (repFold_words_nodup _ _ _ (lexiconPass_words_nodup _))
  · intro k
    exact filter_insertionSort k _

/-! ### Lexicon facts and filter-at-a-word lemmas -/

lemma lex_disjoint :
    (∀ w ∈ profanityWords,
      w ∉ sensitiveWords ∧ w ∉ urgencyWords ∧ w ∉ medicalWords ∧ w ∉ positiveWords)
    ∧ (∀ w ∈ sensitiveWords,
      w ∉ profanityWords ∧ w ∉ urgencyWords ∧ w ∉ medicalWords ∧ w ∉ positiveWords)
    ∧ (∀ w ∈ urgencyWords,
      w ∉ profanityWords ∧ w ∉ sensitiveWords ∧ w ∉ medicalWords ∧ w ∉ positiveWords)
    ∧ (∀ w ∈ medicalWords,
      w ∉ profanityWords ∧ w ∉ sensitiveWords ∧ w ∉ urgencyWords ∧ w ∉ positiveWords)
    ∧ (∀ w ∈ positiveWords,
      w ∉ profanityWords ∧ w ∉ sensitiveWords ∧ w ∉ urgencyWords ∧ w ∉ medicalWords) := by
  refine ⟨?_, ?_, ?_, ?_, ?_⟩ <;> decide

lemma eachLex_nodup :
    profanityWords.Nodup ∧ sensitiveWords.Nodup ∧ urgencyWords.Nodup
    ∧ medicalWords.Nodup ∧ positiveWords.Nodup := by
  decide

/-! filter-at-a-word lemmas for the lexicon pass. -/

lemma filterMap_lexEmit_filter_not_mem (wc : List (String × Nat)) (cat w : String)
    (ws : List String) (h : w ∉ ws) :
    (ws.filterMap (lexEmit wc cat)).filter (fun e => decide (e.word = w)) = [] := by
  induction ws with
  | nil => rfl
  | cons v ws ih =>
    have hv : v ≠ w := fun he => h (he ▸ List.mem_cons_self v ws)
    have hw : w ∉ ws := fun hm => h (List.mem_cons_of_mem v hm)
    cases hl : List.lookup v wc with
    | none => simpa [List.filterMap_cons, lexEmit, hl] using ih hw
    | some n =>
      simpa [List.filterMap_cons, lexEmit, hl, List.filter_cons, hv] using ih hw

lemma filterMap_lexEmit_filter_mem (wc : List (String × Nat)) (cat w : String)
    (n : Nat) (ws : List String) (hnd : ws.Nodup) (hw : w ∈ ws)
    (hl : List.lookup w wc = some n) :
    (ws.filterMap (lexEmit wc cat)).filter (fun e => decide (e.word = w))
      = [⟨w, cat, n, severityFor cat⟩] := by
  induction ws with
  | nil => cases hw
  | cons v ws ih =>
    rcases List.mem_cons.mp hw with he | hm
    · subst he
      have hrest : w ∉ ws := (List.nodup_cons.mp hnd).1
      simp [List.filterMap_cons, lexEmit, hl, List.filter_cons,
        filterMap_lexEmit_filter_not_mem wc cat w ws hrest]
    · have hv : v ≠ w := by
        intro he
        subst he
        exact (List.nodup_cons.mp hnd).1 hm
      have hnd2 : ws.Nodup := (List.nodup_cons.mp hnd).2
      cases hlv : List.lookup v wc with
      | none => simpa [List.filterMap_cons, lexEmit, hlv] using ih hnd2 hm
      | some m =>
        simpa [List.filterMap_cons, lexEmit, hlv, List.filter_cons, hv] using
          ih hnd2 hm

lemma lexiconPass_filter_not_mem (wc : List (String × Nat)) (w : String)
    (h1 : w ∉ profanityWords) (h2 : w ∉ sensitiveWords) (h3 : w ∉ urgencyWords)
    (h4 : w ∉ medicalWords) (h5 : w ∉ positiveWords) :
    (lexiconPass wc).filter (fun e => decide (e.word = w)) = [] := by
  simp [lexiconPass, flaggedCategories, List.filter_append,
    filterMap_lexEmit_filter_not_mem wc _ w _ h1,
    filterMap_lexEmit_filter_not_mem wc _ w _ h2,
    filterMap_lexEmit_filter_not_mem wc _ w _ h3,
    filterMap_lexEmit_filter_not_mem wc _ w _ h4,
    filterMap_lexEmit_filter_not_mem wc _ w _ h5]

lemma lexiconPass_filter_mem (wc : List (String × Nat)) (cat w : String)
    (n : Nat) (ws : List String) (hmem : (cat, ws) ∈ flaggedCategories)
    (hw : w ∈ ws) (hl : List.lookup w wc = some n) :
    (lexiconPass wc).filter (fun e => decide (e.word = w))
      = [⟨w, cat, n, severityFor cat⟩] := by
  have hdj := lex_disjoint
  have hnd := eachLex_nodup
  simp only [flaggedCategories, List.mem_cons, List.mem_singleton,
    List.not_mem_nil, or_false, Prod.mk.injEq] at hmem
  have hexp : lexiconPass wc =
      (profanityWords.filterMap (lexEmit wc ("profanity")))
      ++ ((sensitiveWords.filterMap (lexEmit wc ("sensitive")))
      ++ ((urgencyWords.filterMap (lexEmit wc ("urgency")))
      ++ ((medicalWords.filterMap (lexEmit wc ("medical")))
      ++ (positiveWords.filterMap (lexEmit wc ("positive")))))) := by
    simp [lexiconPass, flaggedCategories]
  rcases hmem with ⟨hc, hws⟩ | ⟨hc, hws⟩ | ⟨hc, hws⟩ | ⟨hc, hws⟩ | ⟨hc, hws⟩ <;>
      subst hc <;> subst hws
  · have h := hdj.1 w hw
    rw [hexp]
    simp [List.filter_append,
      filterMap_lexEmit_filter_mem wc _ w n _ hnd.1 hw hl,
      filterMap_lexEmit_filter_not_mem wc _ w _ h.1,
      filterMap_lexEmit_filter_not_mem wc _ w _ h.2.1,
      filterMap_lexEmit_filter_not_mem wc _ w _ h.2.2.1,
      filterMap_lexEmit_filter_not_mem wc _ w _ h.2.2.2]
  · have h := hdj.2.1 w hw
    rw [hexp]
    simp [List.filter_append,
      filterMap_lexEmit_filter_mem wc _ w n _ hnd.2.1 hw hl,
      filterMap_lexEmit_filter_not_mem wc _ w _ h.1,
      filterMap_lexEmit_filter_not_mem wc _ w _ h.2.1,
      filterMap_lexEmit_filter_not_mem wc _ w _ h.2.2.1,
      filterMap_lexEmit_filter_not_mem wc _ w _ h.2.2.2]
  · have h := hdj.2.2.1 w hw
    rw [hexp]
    simp [List.filter_append,
      filterMap_lexEmit_filter_mem wc _ w n _ hnd.2.2.1 hw hl,
      filterMap_lexEmit_filter_not_mem wc _ w _ h.1,
      filterMap_lexEmit_filter_not_mem wc _ w _ h.2.1,
      filterMap_lexEmit_filter_not_mem wc _ w _ h.2.2.1,
      filterMap_lexEmit_filter_not_mem wc _ w _ h.2.2.2]
  · have h := hdj.2.2.2.1 w hw
    rw [hexp]
    simp [List.filter_append,
      filterMap_lexEmit_filter_mem wc _ w n _ hnd.2.2.2.1 hw hl,
      filterMap_lexEmit_filter_not_mem wc _ w _ h.1,
      filterMap_lexEmit_filter_not_mem wc _ w _ h.2.1,
      filterMap_lexEmit_filter_not_mem wc _ w _ h.2.2.1,
      filterMap_lexEmit_filter_not_mem wc _ w _ h.2.2.2]
  · have h := hdj.2.2.2.2 w hw
    rw [hexp]
    simp [List.filter_append,
      filterMap_lexEmit_filter_mem wc _ w n _ hnd.2.2.2.2 hw hl,
      filterMap_lexEmit_filter_not_mem wc _ w _ h.1,
      filterMap_lexEmit_filter_not_mem wc _ w _ h.2.1,
      filterMap_lexEmit_filter_not_mem wc _ w _ h.2.2.1,
      filterMap_lexEmit_filter_not_mem wc _ w _ h.2.2.2]

/-! ### Repetition-pass filter lemmas -/

lemma repFold_filter_of_mem (tot : Nat) (w : String) :
    ∀ (l : List (String × Nat)) (acc : List FlaggedWord),
      (∃ fw ∈ acc, fw.word = w) →
      (repFold tot l acc).filter (fun e => decide (e.word = w))
        = acc.filter (fun e => decide (e.word = w)) := by
  intro l
  induction l with
  | nil => intro acc _; rfl
  | cons p l ih =>
    intro acc hex
    rcases hex with ⟨fw0, h0, hw0⟩
    rw [repFold, List.foldl_cons]
    have hstep : (repStep tot acc p).filter (fun e => decide (e.word = w))
        = acc.filter (fun e => decide (e.word = w)) := by
      unfold repStep
      split
      · split
        · rename_i hall
          have hpw : p.1 ≠ w := by
            intro he
            exact hall fw0 h0 (he ▸ hw0)
          simp [List.filter_append, List.filter_cons, hpw]
        · rfl
      · rfl
    have hmem : ∃ fw ∈ repStep tot acc p, fw.word = w := by
      refine ⟨fw0, ?_, hw0⟩
      unfold repStep
      split
      · split
        · exact List.mem_append_left _ h0
        · exact h0
      · exact h0
    rw [show (List.foldl (repStep tot) (repStep tot acc p) l)
        = repFold tot l (repStep tot acc p) from rfl]
    rw [ih (repStep tot acc p) hmem, hstep]

lemma repFold_filter_adds (tot : Nat) (w : String) (n : Nat) :
    ∀ (l : List (String × Nat)) (acc : List FlaggedWord),
      (∀ fw ∈ acc, fw.word ≠ w) →
      List.lookup w l = some n → 20 * n > tot → n > 3 →
      (repFold tot l acc).filter (fun e => decide (e.word = w))
        = [⟨w, "repetitive", n, "low"⟩] := by
  intro l
  induction l with
  | nil => intro acc _ hl; cases hl
  | cons p l ih =>
    intro acc hacc hl hfreq hcount
    rw [repFold, List.foldl_cons]
    by_cases hpw : p.1 = w
    · have hn : p.2 = n := by
        rw [List.lookup] at hl
        simp [hpw] at hl
        exact hl
      subst hn
      have hstep : repStep tot acc p = acc ++ [⟨p.1, "repetitive", p.2, "low"⟩] := by
        unfold repStep
        rw [if_pos ⟨hfreq, hcount⟩, if_pos]
        intro fw hfw
        exact fun he => hacc fw hfw (he.trans hpw)
      have hmem : ∃ fw ∈ repStep tot acc p, fw.word = w := by
        rw [hstep]
        exact ⟨⟨p.1, "repetitive", p.2, "low"⟩,
          List.mem_append_right _ (List.mem_singleton.mpr rfl), hpw⟩
      rw [show (List.foldl (repStep tot) (repStep tot acc p) l)
          = repFold tot l (repStep tot acc p) from rfl]
      rw [repFold_filter_of_mem tot w l (repStep tot acc p) hmem, hstep]
      have haccf : acc.filter (fun e => decide (e.word = w)) = [] :=
        List.filter_eq_nil_iff.mpr (fun fw hfw => by simp [hacc fw hfw])
      simp [List.filter_append, haccf, List.filter_cons, hpw]
    · have hl2 : List.lookup w l = some n := by
        rw [List.lookup] at hl
        have hbe : (w == p.1) = false :=
          beq_eq_false_iff_ne.mpr (fun he => hpw he.symm)
        rw [hbe] at hl
        exact hl
      have hacc2 : ∀ fw ∈ repStep tot acc p, fw.word ≠ w := by
        intro fw hfw
        unfold repStep at hfw
        split at hfw
        · split at hfw
          · rcases List.mem_append.mp hfw with hin | hsing
            · exact hacc fw hin
            · rw [List.mem_singleton.mp hsing]
              exact hpw
          · exact hacc fw hfw
        · exact hacc fw hfw
      rw [show (List.foldl (repStep tot) (repStep tot acc p) l)
          = repFold tot l (repStep tot acc p) from rfl]
      exact ih (repStep tot acc p) hacc2 hl2 hfreq hcount

/-- C9: if a word is in the lexicon (under category `cat`) and also exceeds
both repetition thresholds (frequency above 5% of total token count, raw
count above 3), the output contains exactly the lexicon-category entry for
that word and no additional `repetitive` entry.  A word meeting the
thresholds but absent from the whole lexicon yields exactly one
`repetitive` entry with severity low. -/
theorem c9_lexicon_precedence :
    (∀ (text cat w : String) (ws : List String) (n : Nat),
      (cat, ws) ∈ flaggedCategories → w ∈ ws →
      List.lookup w (buildWordCount text) = some n →
      20 * n > ((buildWordCount text).map (fun p => p.2)).sum → n > 3 →
      (detect_flagged_words_server text).filter (fun e => decide (e.word = w))
        = [⟨w, cat, n, severityFor cat⟩])
    ∧ (∀ (text w : String) (n : Nat),
      w ∉ allLexiconWords →
      List.lookup w (buildWordCount text) = some n →
      20 * n > ((buildWordCount text).map (fun p => p.2)).sum → n > 3 →
      (detect_flagged_words_server text).filter (fun e => decide (e.word = w))
        = [⟨w, "repetitive", n, "low"⟩]) := by
  constructor
  · intro text cat w ws n hmem hw hl hfreq hcount
    have hlex := lexiconPass_filter_mem (buildWordCount text) cat w n ws hmem hw hl
    have hment : (⟨w, cat, n, severityFor cat⟩ : FlaggedWord) ∈
        lexiconPass (buildWordCount text) := by
      have : (⟨w, cat, n, severityFor cat⟩ : FlaggedWord) ∈
          (lexiconPass (buildWordCount text)).filter
            (fun e => decide (e.word = w)) := by
        rw [hlex]
        exact List.mem_singleton.mpr rfl
      exact List.mem_of_mem_filter this
    have hrep : (repetitivePass (buildWordCount text)
          (lexiconPass (buildWordCount text))).filter
          (fun e => decide (e.word = w))
        = (lexiconPass (buildWordCount text)).filter
            (fun e => decide (e.word = w)) := by
      unfold repetitivePass
      exact repFold_filter_of_mem _ w _ _ ⟨_, hment, rfl⟩
    have hperm : List.Perm
        ((detect_flagged_words_server text).filter
          (fun e => decide (e.word = w)))
        [(⟨w, cat, n, severityFor cat⟩ : FlaggedWord)] := by
      unfold detect_flagged_words_server
      rw [← hlex, ← hrep]
      exact (List.perm_insertionSort sevGe _).filter _
    exact List.perm_singleton.mp hperm
  · intro text w n hnot hl hfreq hcount
    have h1 : w ∉ profanityWords := fun hm => hnot (by
      simp [allLexiconWords, flaggedCategories]
      exact Or.inl hm)
    have h2 : w ∉ sensitiveWords := fun hm => hnot (by
      simp [allLexiconWords, flaggedCategories]
      exact Or.inr (Or.inl hm))
    have h3 : w ∉ urgencyWords := fun hm => hnot (by
      simp [allLexiconWords, flaggedCategories]
      exact Or.inr (Or.inr (Or.inl hm)))
    have h4 : w ∉ medicalWords := fun hm => hnot (by
      simp [allLexiconWords, flaggedCategories]
      exact Or.inr (Or.inr (Or.inr (Or.inl hm))))
    have h5 : w ∉ positiveWords := fun hm => hnot (by
      simp [allLexiconWords, flaggedCategories]
      exact Or.inr (Or.inr (Or.inr (Or.inr hm))))
    have hlex := lexiconPass_filter_not_mem (buildWordCount text) w h1 h2 h3 h4 h5
    have hacc : ∀ fw ∈ lexiconPass (buildWordCount text), fw.word ≠ w := by
      intro fw hfw he
      have : fw ∈ (lexiconPass (buildWordCount text)).filter
          (fun e => decide (e.word = w)) :=
        List.mem_filter.mpr ⟨hfw, by simp [he]⟩
      rw [hlex] at this
      cases this
    have hrep := repFold_filter_adds
      (((buildWordCount text).map (fun p => p.2)).sum) w n
      (buildWordCount text) (lexiconPass (buildWordCount text)) hacc hl hfreq hcount
    have hperm : List.Perm
        ((detect_flagged_words_server text).filter
          (fun e => decide (e.word = w)))
        [(⟨w, "repetitive", n, "low"⟩ : FlaggedWord)] := by
      unfold detect_flagged_words_server
      rw [show (repetitivePass (buildWordCount text)
          (lexiconPass (buildWordCount text)))
          = repFold (((buildWordCount text).map (fun p => p.2)).sum)
              (buildWordCount text) (lexiconPass (buildWordCount text)) from rfl]
      rw [← hrep]
      exact (List.perm_insertionSort sevGe _).filter _
    exact List.perm_singleton.mp hperm

theorem c9_witness :
    (("profanity", profanityWords) ∈ flaggedCategories
      ∧ ("fuck") ∈ profanityWords
      ∧ List.lookup ("fuck") (buildWordCount ("fuck fuck fuck fuck fuck ok")) = some 5
      ∧ (detect_flagged_words_server ("fuck fuck fuck fuck fuck ok")).filter
          (fun e => decide (e.word = "fuck"))
        = [⟨"fuck", "profanity", 5, severityFor ("profanity")⟩])
    ∧ (("zzzz") ∉ allLexiconWords
      ∧ List.lookup ("zzzz") (buildWordCount ("zzzz zzzz zzzz zzzz zzzz")) = some 5
      ∧ (detect_flagged_words_server ("zzzz zzzz zzzz zzzz zzzz")).filter
          (fun e => decide (e.word = "zzzz"))
        = [⟨"zzzz", "repetitive", 5, "low"⟩]) :=
  ⟨⟨by decide, by decide, by decide,
    c9_lexicon_precedence.1 ("fuck fuck fuck fuck fuck ok") ("profanity")
      ("fuck") profanityWords 5 (by decide) (by decide) (by decide) (by decide)
      (by decide)⟩,
   ⟨by decide, by decide,
    c9_lexicon_precedence.2 ("zzzz zzzz zzzz zzzz zzzz") ("zzzz") 5
      (by decide) (by decide) (by decide) (by decide)⟩⟩
